import Mathlib

/-
Verification of the generation/join/delta engine of AdsDataSqlSync
(src/adsdata/row_view.py and src/run.py), as a shallow embedding.

Modelling conventions:
* A Postgres table keyed by a `bibcode` primary key becomes an association
  list `List (String × value)`; the primary-key constraint makes `List.lookup`
  (first match) the faithful reading of an equi-join against that table.
* The SQL `Float` column `boost` is only ever compared for equality and
  defaulted with `coalesce(boost, 0)` in the code under study, so it is
  modelled as `Int` like the other numeric scalars.
* Fallible SQL statements (`CREATE MATERIALIZED VIEW` on an existing view,
  `ALTER SCHEMA ... RENAME` with a missing source or an existing target)
  become `Except String` results.
-/

set_option autoImplicit false

namespace AdsData

/-- Row of the `relevance` table (row_view.py, get_relevance_table). -/
structure RelevanceRow where
  boost : Int
  citation_count : Int
  read_count : Int
  norm_cites : Int
deriving DecidableEq, Repr

/-- Row of the materialized row view `rowviewm` (row_view.py, get_row_view_table
and create_view_sql). -/
structure RowRecord where
  bibcode : String
  id : Int
  authors : List String
  refereed : Bool
  simbad_objects : List String
  ned_objects : List String
  grants : List String
  citations : List String
  boost : Int
  citation_count : Int
  read_count : Int
  norm_cites : Int
  readers : List String
  downloads : List Int
  reference : List String
  reads : List Int
deriving DecidableEq, Repr

/-- Attribute stores of one generation: one table per attribute, keyed by
bibcode (row_view.py, all_types and the get_*_table constructors). -/
structure Schema where
  canonical : List (String × Int)
  author : List (String × List String)
  refereed : List (String × Bool)
  simbad : List (String × List String)
  ned : List (String × List String)
  grants : List (String × List String)
  citation : List (String × List String)
  relevance : List (String × RelevanceRow)
  reader : List (String × List String)
  download : List (String × List Int)
  reads : List (String × List Int)
  reference : List (String × List String)
deriving DecidableEq, Repr

/-- Default vector for an absent `downloads` row, transcribed from the literal
`ARRAY[0,0,0,0,0,0,0,0,0,0,0,0,0,0,0,0,0,0,0,0,0]` in create_view_sql. -/
def downloadsDefault : List Int :=
  [0, 0, 0, 0, 0, 0, 0, 0, 0, 0, 0, 0, 0, 0, 0, 0, 0, 0, 0, 0, 0]

/-- Default vector for an absent `reads` row, transcribed from the literal
`ARRAY[0,0,0,0,0,0,0,0,0,0,0,0,0,0,0,0,0,0,0,0,0]` in create_view_sql. -/
def readsDefault : List Int :=
  [0, 0, 0, 0, 0, 0, 0, 0, 0, 0, 0, 0, 0, 0, 0, 0, 0, 0, 0, 0, 0]

/-- One row of the materialized view for canonical entry `(b, i)`:
the chain of natural left joins of create_view_sql keeps exactly the
canonical row and, for every attribute table, the matching row when the
bibcode is present (each attribute table has bibcode as primary key) and
the coalesce default otherwise. -/
def createViewRow (s : Schema) (b : String) (i : Int) : RowRecord :=
  { bibcode := b
    id := i
    authors := (s.author.lookup b).getD []
    refereed := (s.refereed.lookup b).getD false
    simbad_objects := (s.simbad.lookup b).getD []
    ned_objects := (s.ned.lookup b).getD []
    grants := (s.grants.lookup b).getD []
    citations := (s.citation.lookup b).getD []
    boost := ((s.relevance.lookup b).map RelevanceRow.boost).getD 0
    citation_count := ((s.relevance.lookup b).map RelevanceRow.citation_count).getD 0
    read_count := ((s.relevance.lookup b).map RelevanceRow.read_count).getD 0
    norm_cites := ((s.relevance.lookup b).map RelevanceRow.norm_cites).getD 0
    readers := (s.reader.lookup b).getD []
    downloads := (s.download.lookup b).getD downloadsDefault
    reference := (s.reference.lookup b).getD []
    reads := (s.reads.lookup b).getD readsDefault }

/-- Contents of the materialized view `rowviewm` (create_view_sql): one row
per canonical entry. -/
def create_view (s : Schema) : List RowRecord :=
  s.canonical.map (fun p => createViewRow s p.1 p.2)

/-- Point lookup of a row view by bibcode (the bibcode column is the view's
indexed key). -/
def lookupRow (v : List RowRecord) (b : String) : Option RowRecord :=
  v.find? (fun r => r.bibcode == b)

/-- Disjunction of per-field inequality tests of create_changed_sql, in source
order; note that `reference` and `id` do not appear. -/
def rowChanged (r1 r2 : RowRecord) : Bool :=
  decide (r1.authors ≠ r2.authors) ||
  decide (r1.refereed ≠ r2.refereed) ||
  decide (r1.simbad_objects ≠ r2.simbad_objects) ||
  decide (r1.ned_objects ≠ r2.ned_objects) ||
  decide (r1.grants ≠ r2.grants) ||
  decide (r1.citations ≠ r2.citations) ||
  decide (r1.boost ≠ r2.boost) ||
  decide (r1.norm_cites ≠ r2.norm_cites) ||
  decide (r1.citation_count ≠ r2.citation_count) ||
  decide (r1.read_count ≠ r2.read_count) ||
  decide (r1.readers ≠ r2.readers) ||
  decide (r1.downloads ≠ r2.downloads) ||
  decide (r1.reads ≠ r2.reads)

/-- Bibcodes selected by create_changed_sql: candidate rows that have a
baseline row with the same bibcode and a differing compared field. -/
def create_changed (v1 v2 : List RowRecord) : List String :=
  (v1.filter (fun r =>
    match lookupRow v2 r.bibcode with
    | some r2 => rowChanged r r2
    | none => false)).map RowRecord.bibcode

/-- Anti-join of populate_new_bibcodes_sql / include_new_bibcodes_sql:
candidate canonical bibcodes with no row in the baseline canonical table. -/
def newBibcodes (c1 c2 : List (String × Int)) : List String :=
  (c1.filter (fun p => (c2.lookup p.1).isNone)).map Prod.fst

/-- Added set at generation level (build_new_bibcodes): reads only the two
canonical tables. -/
def build_new_bibcodes (s1 s2 : Schema) : List String :=
  newBibcodes s1.canonical s2.canonical

/-- Contents of the persisted `changedrowsm` table after create_delta_rows:
first the rows selected by create_changed_sql, then the new bibcodes appended
by include_new_bibcodes_sql. -/
def create_delta_rows (s1 s2 : Schema) : List String :=
  create_changed (create_view s1) (create_view s2) ++ build_new_bibcodes s1 s2

/-- Per-field inequality test used by the audit queries of log_delta_reasons
(one SQL count per column name). -/
def fieldDiffers (name : String) (r1 r2 : RowRecord) : Bool :=
  match name with
  | "authors" => decide (r1.authors ≠ r2.authors)
  | "refereed" => decide (r1.refereed ≠ r2.refereed)
  | "simbad_objects" => decide (r1.simbad_objects ≠ r2.simbad_objects)
  | "ned_objects" => decide (r1.ned_objects ≠ r2.ned_objects)
  | "grants" => decide (r1.grants ≠ r2.grants)
  | "citations" => decide (r1.citations ≠ r2.citations)
  | "boost" => decide (r1.boost ≠ r2.boost)
  | "citation_count" => decide (r1.citation_count ≠ r2.citation_count)
  | "read_count" => decide (r1.read_count ≠ r2.read_count)
  | "norm_cites" => decide (r1.norm_cites ≠ r2.norm_cites)
  | "readers" => decide (r1.readers ≠ r2.readers)
  | "downloads" => decide (r1.downloads ≠ r2.downloads)
  | "reads" => decide (r1.reads ≠ r2.reads)
  | "reference" => decide (r1.reference ≠ r2.reference)
  | _ => false

/-- Column names audited by log_delta_reasons, in source order. -/
def audit_column_names : List String :=
  ["authors", "refereed", "simbad_objects", "grants", "citations",
   "boost", "citation_count", "read_count", "norm_cites",
   "readers", "downloads", "reads", "reference", "ned_objects"]

/-- Field names compared by create_changed_sql, in source order. -/
def comparison_field_names : List String :=
  ["authors", "refereed", "simbad_objects", "ned_objects", "grants",
   "citations", "boost", "norm_cites", "citation_count", "read_count",
   "readers", "downloads", "reads"]

/-- Attribute fields materialized into the row view by create_view_sql
(excluding the key `bibcode` and the surrogate `id`), in source order. -/
def row_view_attribute_names : List String :=
  ["authors", "refereed", "simbad_objects", "ned_objects", "grants",
   "citations", "boost", "citation_count", "read_count", "norm_cites",
   "readers", "downloads", "reference", "reads"]

/-- Count computed by one audit query of log_delta_reasons: candidate rows
joined to a baseline row with the same bibcode where the named column
differs. -/
def countFieldDifferences (name : String) (v1 v2 : List RowRecord) : Nat :=
  (v1.filter (fun r =>
    match lookupRow v2 r.bibcode with
    | some r2 => fieldDiffers name r r2
    | none => false)).length

/-- Full audit output of log_delta_reasons: one count per audited column. -/
def log_delta_reasons (v1 v2 : List RowRecord) : List (String × Nat) :=
  audit_column_names.map (fun n => (n, countFieldDifferences n v1 v2))

/-- One named generation: its attribute stores plus the materialized row view
when `create_joined_rows` has run (`none` before materialization). -/
structure GenState where
  stores : Schema
  rowView : Option (List RowRecord)
deriving DecidableEq, Repr

/-- Error text standing for the Postgres `relation already exists` failure of
`CREATE MATERIALIZED VIEW` on a schema whose view was already created. -/
def viewExistsMsg : String := "relation rowviewm already exists"

/-- Materialization step of create_joined_rows: it issues a plain
`CREATE MATERIALIZED VIEW` (no drop, no OR REPLACE), so it fails when the
view already exists and otherwise stores the join of the current attribute
stores. -/
def create_joined_rows (g : GenState) : Except String GenState :=
  match g.rowView with
  | some _ => Except.error viewExistsMsg
  | none => Except.ok { g with rowView := some (create_view g.stores) }

/-- Database: named schemas (generations). Names are unique, as in Postgres. -/
def Db : Type := List (String × GenState)

/-- Error text standing for the Postgres failure of `ALTER SCHEMA old RENAME`
when schema `old` does not exist. -/
def schemaMissingMsg : String := "schema does not exist"

/-- Error text standing for the Postgres failure of `ALTER SCHEMA old RENAME
TO new` when schema `new` already exists. -/
def schemaExistsMsg : String := "schema already exists"

/-- Promotion primitive rename_schema: an unconditional
`alter schema {old} rename to {new}`. The engine fails when the source is
missing or the target name is taken; no other check (in particular no
materialization-completeness check) is performed. -/
def rename_schema (db : Db) (old new : String) : Except String Db :=
  match List.lookup old db with
  | none => Except.error schemaMissingMsg
  | some _ =>
    match List.lookup new db with
    | some _ => Except.error schemaExistsMsg
    | none => Except.ok (db.map (fun p => if p.1 == old then (new, p.2) else p))

/-- Audit command log_delta_reasons as a database operation: it only runs
SELECT count queries against the two row views, returning the counts and the
database unchanged. -/
def log_delta_reasons_run (db : Db) (candName baseName : String) :
    Option (List (String × Nat)) × Db :=
  (match List.lookup candName db, List.lookup baseName db with
   | some g1, some g2 =>
     match g1.rowView, g2.rowView with
     | some v1, some v2 => some (log_delta_reasons v1 v2)
     | _, _ => none
   | _, _ => none,
   db)

/-- Batching loop of nonbib_to_master_pipeline (run.py): records are appended
to `recs`; whenever `recs` reaches `batch_size` it is handed to the sink and
reset. When the input ends, whatever remains in `recs` is discarded — the
source has no flush after its loop. The returned list is the sequence of
batches actually delivered. -/
def batch_loop {α : Type} (batch_size : Nat) : List α → List α → List (List α)
  | [], _ => []
  | r :: rest, recs =>
    let recs2 := recs ++ [r]
    if batch_size ≤ recs2.length then recs2 :: batch_loop batch_size rest []
    else batch_loop batch_size rest recs2

/-- Distributor nonbib_to_master_pipeline: iterate the row view's records and
deliver them in batches via the batching loop. -/
def nonbib_to_master_pipeline {α : Type} (rows : List α) (batch_size : Nat) :
    List (List α) :=
  batch_loop batch_size rows []

/-- Key membership of a row viewed through `keyDiffers`: both generations hold
the bibcode and the named column differs between the two matched rows. -/
def keyDiffers (name : String) (v1 v2 : List RowRecord) (b : String) : Bool :=
  match lookupRow v1 b, lookupRow v2 b with
  | some r1, some r2 => fieldDiffers name r1 r2
  | _, _ => false

/-- Baseline generation of the worked example of the spec (canonical keys
A and B; B has boost 1). -/
def baseS : Schema :=
  { canonical := [("A", 1), ("B", 2)]
    author := [], refereed := [], simbad := [], ned := [], grants := []
    citation := [], relevance := [("B", ⟨1, 0, 0, 0⟩)], reader := []
    download := [], reads := [], reference := [] }

/-- Candidate generation of the worked example of the spec (canonical keys
A, B and C; B has boost 2). -/
def candS : Schema :=
  { canonical := [("A", 1), ("B", 2), ("C", 3)]
    author := [], refereed := [], simbad := [], ned := [], grants := []
    citation := [], relevance := [("B", ⟨2, 0, 0, 0⟩)], reader := []
    download := [], reads := [], reference := [] }

/-- Baseline generation for the grants-only difference example. -/
def baseGrantsS : Schema :=
  { canonical := [("B", 2)]
    author := [], refereed := [], simbad := [], ned := []
    grants := [("B", ["g1"])]
    citation := [], relevance := [], reader := []
    download := [], reads := [], reference := [] }

/-- Candidate generation for the grants-only difference example. -/
def candGrantsS : Schema :=
  { canonical := [("B", 2)]
    author := [], refereed := [], simbad := [], ned := []
    grants := [("B", ["g2"])]
    citation := [], relevance := [], reader := []
    download := [], reads := [], reference := [] }

/-- Candidate generation state before materialization. -/
def demoGen : GenState := { stores := candS, rowView := none }

/-- Second demonstration generation state, before materialization. -/
def demoGen2 : GenState := { stores := baseS, rowView := none }

/-- Database holding only the unmaterialized candidate generation. -/
def dbDemo : Db := [("nonbib", demoGen)]

/-- Lookup in an association list misses exactly when no pair carries the
key. -/
theorem lookup_eq_none_iff {β : Type} (b : String) (l : List (String × β)) :
    List.lookup b l = none ↔ ∀ v, (b, v) ∉ l := by
  induction l with
  | nil => simp
  | cons p t ih =>
    obtain ⟨k, w⟩ := p
    by_cases hk : b = k
    · subst hk
      exact iff_of_false (by simp [List.lookup])
        (fun hall => hall w (List.mem_cons_self _ _))
    · have hbk : (b == k) = false := beq_false_of_ne hk
      simp [List.lookup, hbk, ih, hk]

/-- A bibcode absent from a row view's key column is not found by the point
lookup. -/
theorem lookupRow_eq_none_of_not_mem (v : List RowRecord) (b : String)
    (h : b ∉ v.map RowRecord.bibcode) : lookupRow v b = none := by
  apply List.find?_eq_none.mpr
  intro r hr
  simp only [beq_eq_false_iff_ne, ne_eq, Bool.not_eq_true]
  intro heq
  exact h (List.mem_map.mpr ⟨r, hr, by simpa using heq⟩)

/-- A successful point lookup returns a member row carrying the queried
bibcode. -/
theorem lookupRow_mem (v : List RowRecord) (b : String) (r : RowRecord)
    (h : lookupRow v b = some r) : r ∈ v ∧ r.bibcode = b := by
  refine ⟨List.mem_of_find?_eq_some h, ?_⟩
  have := List.find?_some h
  simpa using this

/-- With pairwise distinct bibcodes, the point lookup of a member row's
bibcode returns that row. -/
theorem lookupRow_self (v : List RowRecord)
    (hn : (v.map RowRecord.bibcode).Nodup) :
    ∀ r ∈ v, lookupRow v r.bibcode = some r := by
  induction v with
  | nil => simp
  | cons x t ih =>
    have hx : x.bibcode ∉ t.map RowRecord.bibcode :=
      (List.nodup_cons.mp (by simpa using hn)).1
    have hnt : (t.map RowRecord.bibcode).Nodup :=
      (List.nodup_cons.mp (by simpa using hn)).2
    intro r hr
    rcases List.mem_cons.mp hr with rfl | hrt
    · simp [lookupRow]
    · have hne : (x.bibcode == r.bibcode) = false := by
        refine beq_false_of_ne fun he => hx ?_
        exact he ▸ List.mem_map_of_mem RowRecord.bibcode hrt
      unfold lookupRow
      rw [List.find?_cons_of_neg _ (by simp [hne])]
      exact ih hnt r hrt

/-- Key column of the materialized view: exactly the canonical key column, in
order. -/
theorem create_view_keys (s : Schema) :
    (create_view s).map RowRecord.bibcode = s.canonical.map Prod.fst := by
  simp only [create_view, List.map_map]
  rfl

/-- Default downloads vector of create_view_sql is 21 zeros. -/
theorem downloadsDefault_eq : downloadsDefault = List.replicate 21 (0 : Int) := by
  decide

/-- Default reads vector of create_view_sql is 21 zeros. -/
theorem readsDefault_eq : readsDefault = List.replicate 21 (0 : Int) := by
  decide

/-- C5: after materialization the row view's key set exactly equals the
canonical attribute's key set, for every generation, regardless of which
optional attribute stores are populated (they do not occur in the
statement at all), including when every optional store is empty. -/
theorem domain_closure (s : Schema) :
    (create_view s).map RowRecord.bibcode = s.canonical.map Prod.fst :=
  create_view_keys s

/-- C2: for every key present in the canonical attribute but absent from an
optional attribute store, the materialized row's field for that attribute
equals the declared default: empty sequence for authors, simbad_objects,
ned_objects, grants, citations, readers and reference; false for refereed;
0 for boost, citation_count, read_count and norm_cites; an all-zero
fixed-length vector for downloads and reads. -/
theorem default_fill (s : Schema) (b : String) (i : Int)
    (h : (b, i) ∈ s.canonical) :
    createViewRow s b i ∈ create_view s
    ∧ (s.author.lookup b = none → (createViewRow s b i).authors = [])
    ∧ (s.simbad.lookup b = none → (createViewRow s b i).simbad_objects = [])
    ∧ (s.ned.lookup b = none → (createViewRow s b i).ned_objects = [])
    ∧ (s.grants.lookup b = none → (createViewRow s b i).grants = [])
    ∧ (s.citation.lookup b = none → (createViewRow s b i).citations = [])
    ∧ (s.reader.lookup b = none → (createViewRow s b i).readers = [])
    ∧ (s.reference.lookup b = none → (createViewRow s b i).reference = [])
    ∧ (s.refereed.lookup b = none → (createViewRow s b i).refereed = false)
    ∧ (s.relevance.lookup b = none →
        (createViewRow s b i).boost = 0
        ∧ (createViewRow s b i).citation_count = 0
        ∧ (createViewRow s b i).read_count = 0
        ∧ (createViewRow s b i).norm_cites = 0)
    ∧ (s.download.lookup b = none →
        (createViewRow s b i).downloads = List.replicate 21 0)
    ∧ (s.reads.lookup b = none →
        (createViewRow s b i).reads = List.replicate 21 0) := by
  refine ⟨List.mem_map.mpr ⟨(b, i), h, rfl⟩, ?_, ?_, ?_, ?_, ?_, ?_, ?_, ?_,
    ?_, ?_, ?_⟩ <;>
    intro hnone <;>
    simp [createViewRow, hnone, downloadsDefault_eq, readsDefault_eq]

/-- C2 witness: in the example candidate generation, key A is canonical and
every optional store misses it, so its row is present and default-filled. -/
theorem default_fill_witness :
    createViewRow candS "A" 1 ∈ create_view candS
    ∧ (createViewRow candS "A" 1).authors = []
    ∧ (createViewRow candS "A" 1).refereed = false
    ∧ (createViewRow candS "A" 1).downloads = List.replicate 21 0 :=
  ⟨(default_fill candS "A" 1 (by decide)).1,
   (default_fill candS "A" 1 (by decide)).2.1 (by decide),
   (default_fill candS "A" 1 (by decide)).2.2.2.2.2.2.2.2.1 (by decide),
   (default_fill candS "A" 1 (by decide)).2.2.2.2.2.2.2.2.2.2.1 (by decide)⟩

/-- C10: the fixed default vector substituted for absent downloads and reads
attributes has length exactly 21: for a canonical key absent from the
download (resp. reads) store, the row view's downloads (resp. reads) field
is a sequence of 21 zeros. -/
theorem absent_usage_default_is_21_zeros (s : Schema) (b : String) (i : Int)
    (h : (b, i) ∈ s.canonical)
    (hd : s.download.lookup b = none) (hr : s.reads.lookup b = none) :
    downloadsDefault = List.replicate 21 0
    ∧ readsDefault = List.replicate 21 0
    ∧ (createViewRow s b i).downloads = List.replicate 21 0
    ∧ (createViewRow s b i).reads = List.replicate 21 0
    ∧ createViewRow s b i ∈ create_view s := by
  refine ⟨downloadsDefault_eq, readsDefault_eq, ?_, ?_,
    List.mem_map.mpr ⟨(b, i), h, rfl⟩⟩ <;>
    simp [createViewRow, hd, hr, downloadsDefault_eq, readsDefault_eq]

/-- C10 witness: key B of the example candidate generation has no download
and no reads row, and its materialized row carries the 21-zero vectors. -/
theorem absent_usage_default_is_21_zeros_witness :
    (createViewRow candS "B" 2).downloads = List.replicate 21 0
    ∧ (createViewRow candS "B" 2).reads = List.replicate 21 0 :=
  ⟨(absent_usage_default_is_21_zeros candS "B" 2 (by decide) (by decide)
      (by decide)).2.2.1,
   (absent_usage_default_is_21_zeros candS "B" 2 (by decide) (by decide)
      (by decide)).2.2.2.1⟩

/-- C6: the added set is the pure anti-join of the two canonical key domains
(a key is added precisely when it is in the candidate canonical table and in
no row of the baseline canonical table), and it depends on nothing but the
two canonical tables. -/
theorem added_set_anti_join (s1 s2 : Schema) (b : String) :
    (b ∈ build_new_bibcodes s1 s2 ↔
      (∃ i, (b, i) ∈ s1.canonical) ∧ ∀ i, (b, i) ∉ s2.canonical)
    ∧ ∀ t1 t2 : Schema, t1.canonical = s1.canonical →
        t2.canonical = s2.canonical →
        build_new_bibcodes t1 t2 = build_new_bibcodes s1 s2 := by
  constructor
  · simp only [build_new_bibcodes, newBibcodes, List.mem_map, List.mem_filter]
    constructor
    · rintro ⟨⟨k, i⟩, ⟨hmem, hnone⟩, rfl⟩
      exact ⟨⟨i, hmem⟩,
        (lookup_eq_none_iff k s2.canonical).mp
          (Option.isNone_iff_eq_none.mp hnone)⟩
    · rintro ⟨⟨i, hi⟩, hnot⟩
      exact ⟨(b, i), ⟨hi, by
        simp [Option.isNone_iff_eq_none,
          (lookup_eq_none_iff b s2.canonical).mpr hnot]⟩, rfl⟩
  · intro t1 t2 h1 h2
    simp [build_new_bibcodes, h1, h2]

/-- C6 witness: in the worked example, C is newly canonical in the candidate
and absent from the baseline, so C is in the added set. -/
theorem added_set_anti_join_witness :
    "C" ∈ build_new_bibcodes candS baseS :=
  (added_set_anti_join candS baseS "C").1.mpr
    ⟨⟨3, by decide⟩,
     (lookup_eq_none_iff "C" baseS.canonical).mp (by decide)⟩

/-- C1 counterexample: in the worked example, C is an added key (canonical in
the candidate, absent from the baseline canonical table), yet after
create_delta_rows it appears in the persisted changedrowsm table, because
include_new_bibcodes_sql deliberately inserts the new bibcodes there. -/
theorem added_key_in_persisted_changed_counterexample :
    "C" ∈ build_new_bibcodes candS baseS
    ∧ "C" ∈ create_delta_rows candS baseS := by
  decide

/-- C1 amended: an added key never satisfies the changed-row selection of
create_changed_sql (that selection requires a baseline row with the same
bibcode), so the computed changed set is disjoint from the added set; but
create_delta_rows then appends every added key to the persisted changedrowsm
table, so added keys do appear in that table. -/
theorem added_insert_into_changed_table (s1 s2 : Schema) (b : String)
    (h : b ∈ build_new_bibcodes s1 s2) :
    b ∉ create_changed (create_view s1) (create_view s2)
    ∧ b ∈ create_delta_rows s1 s2 := by
  have hnone : List.lookup b s2.canonical = none := by
    rcases List.mem_map.mp h with ⟨p, hp, hpb⟩
    rcases List.mem_filter.mp hp with ⟨_, hpn⟩
    exact hpb ▸ Option.isNone_iff_eq_none.mp hpn
  have hnotmem : b ∉ (create_view s2).map RowRecord.bibcode := by
    rw [create_view_keys]
    intro hmem
    rcases List.mem_map.mp hmem with ⟨⟨k, i⟩, hk, hkb⟩
    exact ((lookup_eq_none_iff b s2.canonical).mp hnone i) (by
      cases hkb
      exact hk)
  have hrow : lookupRow (create_view s2) b = none :=
    lookupRow_eq_none_of_not_mem _ _ hnotmem
  constructor
  · intro hmem
    rcases List.mem_map.mp hmem with ⟨r, hr, hrb⟩
    rcases List.mem_filter.mp hr with ⟨_, hsel⟩
    rw [hrb, hrow] at hsel
    simp at hsel
  · exact List.mem_append.mpr (Or.inr h)

/-- C1 amended witness: the added key C of the worked example is not selected
as changed but does land in the persisted changedrowsm table. -/
theorem added_insert_into_changed_table_witness :
    "C" ∉ create_changed (create_view candS) (create_view baseS)
    ∧ "C" ∈ create_delta_rows candS baseS :=
  added_insert_into_changed_table candS baseS "C" (by decide)

/-- C3 counterexample: materializing the demonstration generation once
succeeds, but invoking create_joined_rows a second time on the unchanged
generation fails with the already-exists error of CREATE MATERIALIZED VIEW
(there is no drop and no OR REPLACE in create_joined_rows), instead of
succeeding and overwriting. -/
theorem materialization_rerun_counterexample :
    create_joined_rows demoGen
        = Except.ok { demoGen with rowView := some (create_view demoGen.stores) }
    ∧ create_joined_rows
          { demoGen with rowView := some (create_view demoGen.stores) }
        = Except.error viewExistsMsg :=
  ⟨rfl, rfl⟩

/-- C3 amended: a first materialization of a generation stores the join of
its attribute stores; a second invocation on the unchanged generation fails
with the already-exists error rather than overwriting; and materializing any
generation with the same attribute stores (e.g. after the schema is dropped
and rebuilt unchanged) yields a row view identical to the first run's, since
the view is a deterministic function of the stores. -/
theorem materialization_rerun_spec (g g2 : GenState)
    (h : g.rowView = none) (h2 : g2.rowView = none)
    (hs : g2.stores = g.stores) :
    create_joined_rows g
        = Except.ok { g with rowView := some (create_view g.stores) }
    ∧ (∀ g1, create_joined_rows g = Except.ok g1 →
        create_joined_rows g1 = Except.error viewExistsMsg)
    ∧ create_joined_rows g2
        = Except.ok { g2 with rowView := some (create_view g.stores) } := by
  refine ⟨?_, ?_, ?_⟩
  · simp [create_joined_rows, h]
  · intro g1 hg1
    simp only [create_joined_rows, h] at hg1
    cases hg1
    simp [create_joined_rows]
  · simp [create_joined_rows, h2, hs]

/-- C3 amended witness: the second demonstration generation materializes
successfully from the unmaterialized state. -/
theorem materialization_rerun_spec_witness :
    create_joined_rows demoGen2
      = Except.ok { demoGen2 with rowView := some (create_view demoGen2.stores) } :=
  (materialization_rerun_spec demoGen2 demoGen2 rfl rfl rfl).1

/-- C8 counterexample: in the demonstration database the target name
nonbibstaging holds no generation and the candidate's row view has not been
materialized — both failure conditions of the claim — yet rename_schema
succeeds and performs the rename, because the code runs an unconditional
ALTER SCHEMA RENAME with no PromotionConflict check. -/
theorem promotion_no_conflict_check_counterexample :
    List.lookup "nonbibstaging" dbDemo = none
    ∧ demoGen.rowView = none
    ∧ rename_schema dbDemo "nonbib" "nonbibstaging"
        = Except.ok [("nonbibstaging", demoGen)] :=
  ⟨rfl, rfl, rfl⟩

/-- C8 amended: promotion is an unconditional schema rename: it fails with
the storage engine's error (and performs no rename) exactly when the
candidate schema is missing or the target name is already in use, and it
succeeds — renaming in one step, with no materialization-completeness
check — whenever the candidate exists and the target name is free. -/
theorem rename_schema_spec (db : Db) (old new : String) :
    (List.lookup old db = none →
      rename_schema db old new = Except.error schemaMissingMsg)
    ∧ ((List.lookup old db).isSome = true → (List.lookup new db).isSome = true →
      rename_schema db old new = Except.error schemaExistsMsg)
    ∧ ((List.lookup old db).isSome = true → List.lookup new db = none →
      rename_schema db old new =
        Except.ok (db.map (fun p => if p.1 == old then (new, p.2) else p))) := by
  refine ⟨?_, ?_, ?_⟩
  · intro h
    simp [rename_schema, h]
  · intro h1 h2
    rcases Option.isSome_iff_exists.mp h1 with ⟨g1, hg1⟩
    rcases Option.isSome_iff_exists.mp h2 with ⟨g2, hg2⟩
    simp [rename_schema, hg1, hg2]
  · intro h1 h2
    rcases Option.isSome_iff_exists.mp h1 with ⟨g1, hg1⟩
    simp [rename_schema, hg1, h2]

/-- C8 amended witness: renaming the demonstration candidate onto the free
baseline name succeeds unconditionally. -/
theorem rename_schema_spec_witness :
    rename_schema dbDemo "nonbib" "nonbibstaging"
      = Except.ok (dbDemo.map
          (fun p => if p.1 == "nonbib" then ("nonbibstaging", p.2) else p)) :=
  (rename_schema_spec dbDemo "nonbib" "nonbibstaging").2.2 rfl rfl

/-- C7: evaluating the Distributor at three records with batch size two shows
the bug: only the one full batch is delivered and record c, which belongs to
the final partial batch, is handed to the sink in no batch at all, because
nonbib_to_master_pipeline never flushes the remainder after its loop. -/
theorem distributor_drops_final_partial_batch :
    nonbib_to_master_pipeline ["a", "b", "c"] 2 = [["a", "b"]]
    ∧ ∀ batch ∈ nonbib_to_master_pipeline ["a", "b", "c"] 2, "c" ∉ batch := by
  decide

/-- Rows agreeing on every compared field are not selected by the changed-row
disjunction of create_changed_sql. -/
theorem rowChanged_of_compared_fields_eq (r1 r2 : RowRecord)
    (h : ∀ n ∈ comparison_field_names, fieldDiffers n r1 r2 = false) :
    rowChanged r1 r2 = false := by
  have h1 : decide (r1.authors ≠ r2.authors) = false := h "authors" (by decide)
  have h2 : decide (r1.refereed ≠ r2.refereed) = false := h "refereed" (by decide)
  have h3 : decide (r1.simbad_objects ≠ r2.simbad_objects) = false :=
    h "simbad_objects" (by decide)
  have h4 : decide (r1.ned_objects ≠ r2.ned_objects) = false :=
    h "ned_objects" (by decide)
  have h5 : decide (r1.grants ≠ r2.grants) = false := h "grants" (by decide)
  have h6 : decide (r1.citations ≠ r2.citations) = false :=
    h "citations" (by decide)
  have h7 : decide (r1.boost ≠ r2.boost) = false := h "boost" (by decide)
  have h8 : decide (r1.norm_cites ≠ r2.norm_cites) = false :=
    h "norm_cites" (by decide)
  have h9 : decide (r1.citation_count ≠ r2.citation_count) = false :=
    h "citation_count" (by decide)
  have h10 : decide (r1.read_count ≠ r2.read_count) = false :=
    h "read_count" (by decide)
  have h11 : decide (r1.readers ≠ r2.readers) = false := h "readers" (by decide)
  have h12 : decide (r1.downloads ≠ r2.downloads) = false :=
    h "downloads" (by decide)
  have h13 : decide (r1.reads ≠ r2.reads) = false := h "reads" (by decide)
  simp [rowChanged, h1, h2, h3, h4, h5, h6, h7, h8, h9, h10, h11, h12, h13]

/-- C4 counterexample: the comparison list of create_changed_sql contains
the grant sequence and both object-catalog sequences, contrary to the claim
that they are omitted; accordingly a generation pair differing only in
grants does surface in the changed set. -/
theorem comparison_field_list_counterexample :
    "grants" ∈ comparison_field_names
    ∧ "simbad_objects" ∈ comparison_field_names
    ∧ "ned_objects" ∈ comparison_field_names
    ∧ create_changed (create_view candGrantsS) (create_view baseGrantsS)
        = ["B"] := by
  decide

/-- C4 amended: among the attribute fields materialized into the row view,
the comparison list of create_changed_sql omits only the reference sequence;
and any field outside that list is invisible to the changed set: rows that
agree on every compared field are never selected, so whole views agreeing on
the compared fields of matching keys produce an empty changed set. -/
theorem comparison_field_list_spec :
    (∀ n ∈ row_view_attribute_names,
      (n ∈ comparison_field_names ↔ n ≠ "reference"))
    ∧ (∀ r1 r2 : RowRecord,
        (∀ n ∈ comparison_field_names, fieldDiffers n r1 r2 = false) →
        rowChanged r1 r2 = false)
    ∧ (∀ v1 v2 : List RowRecord,
        (∀ r1 ∈ v1, ∀ r2, lookupRow v2 r1.bibcode = some r2 →
          ∀ n ∈ comparison_field_names, fieldDiffers n r1 r2 = false) →
        create_changed v1 v2 = []) := by
  refine ⟨by decide, rowChanged_of_compared_fields_eq, ?_⟩
  intro v1 v2 h
  have hf : v1.filter (fun r =>
      match lookupRow v2 r.bibcode with
      | some r2 => rowChanged r r2
      | none => false) = [] := by
    rw [List.filter_eq_nil_iff]
    intro r hr
    cases hl : lookupRow v2 r.bibcode with
    | none => simp [hl]
    | some r2 =>
      simp only [hl, Bool.not_eq_true]
      exact rowChanged_of_compared_fields_eq r r2 (h r hr r2 hl)
  simp [create_changed, hf]

/-- C4 amended witness: the authors field of the row view is in the
comparison list, as the amended statement requires of every non-reference
attribute field. -/
theorem comparison_field_list_spec_witness :
    ("authors" ∈ comparison_field_names ↔ "authors" ≠ "reference") :=
  comparison_field_list_spec.1 "authors" (by decide)

/-- Join-based audit count of one column rewritten as a count over bibcodes
present in both views whose named column differs (valid whenever the
candidate view has pairwise distinct bibcodes, which the view's primary key
guarantees). -/
theorem countFieldDifferences_eq_keyCount (name : String)
    (v1 v2 : List RowRecord) (hn : (v1.map RowRecord.bibcode).Nodup) :
    countFieldDifferences name v1 v2
      = ((v1.map RowRecord.bibcode).filter (keyDiffers name v1 v2)).length := by
  rw [List.filter_map, List.length_map]
  unfold countFieldDifferences
  congr 1
  apply List.filter_congr
  intro r hr
  have hs := lookupRow_self v1 hn r hr
  simp only [Function.comp_apply, keyDiffers, hs]
  cases lookupRow v2 r.bibcode <;> rfl

/-- C9: the Change Auditor reports, for each audited field independently,
exactly the number of bibcodes present in both generations' row views whose
single named field differs; any key whose named field differs under a
successful two-sided lookup makes that field's count positive (so a key with
several differing fields contributes to several counts); and the audit
leaves the database unchanged (it only executes count queries). -/
theorem change_auditor_spec (v1 v2 : List RowRecord)
    (hn : (v1.map RowRecord.bibcode).Nodup) (name : String)
    (hname : name ∈ audit_column_names) :
    List.lookup name (log_delta_reasons v1 v2)
        = some (((v1.map RowRecord.bibcode).filter
            (keyDiffers name v1 v2)).length)
    ∧ (∀ b, keyDiffers name v1 v2 b = true →
        0 < countFieldDifferences name v1 v2)
    ∧ (∀ (db : Db) (c bl : String), (log_delta_reasons_run db c bl).2 = db) := by
  refine ⟨?_, ?_, fun db c bl => rfl⟩
  · unfold log_delta_reasons
    rw [List.lookup_graph (fun n => countFieldDifferences n v1 v2) hname,
      countFieldDifferences_eq_keyCount name v1 v2 hn]
  · intro b hb
    unfold keyDiffers at hb
    cases hl1 : lookupRow v1 b with
    | none => rw [hl1] at hb; simp at hb
    | some r1 =>
      rw [hl1] at hb
      cases hl2 : lookupRow v2 b with
      | none => rw [hl2] at hb; simp at hb
      | some r2 =>
        rw [hl2] at hb
        obtain ⟨hr1mem, hr1b⟩ := lookupRow_mem v1 b r1 hl1
        have hsel : (match lookupRow v2 r1.bibcode with
            | some r2 => fieldDiffers name r1 r2
            | none => false) = true := by
          rw [hr1b, hl2]
          exact hb
        have hmem : r1 ∈ v1.filter (fun r =>
            match lookupRow v2 r.bibcode with
            | some r2 => fieldDiffers name r r2
            | none => false) :=
          List.mem_filter.mpr ⟨hr1mem, hsel⟩
        exact List.length_pos_of_mem hmem

/-- C9 witness: auditing the worked example's candidate against its baseline,
the boost count is reported through the audit output for exactly the keys in
both views whose boost differs. -/
theorem change_auditor_spec_witness :
    List.lookup "boost"
        (log_delta_reasons (create_view candS) (create_view baseS))
      = some ((((create_view candS).map RowRecord.bibcode).filter
          (keyDiffers "boost" (create_view candS) (create_view baseS))).length) :=
  (change_auditor_spec (create_view candS) (create_view baseS) (by decide)
      "boost" (by decide)).1

end AdsData
